import Mathlib

/-!
Verification development for the PROJ textual-representation subsystem
(`src/include/proj/io.hpp`): the WKT bracketed grammar (parser, formatter,
dialect classifier), the PROJ-string pipeline model, and the registry-backed
authority resolver.

The repository ships only the public header `io.hpp`; the translation units
implementing it are not part of the source tree under study.  Consequently the
executable behaviour below is modelled from the specification document
(`spec.md`), faithful to its words, while all type structure, operation names,
default arguments and the error taxonomy follow the declarations of `io.hpp`.
-/

namespace PROJ

/-- Exception raised by `WKTNode::createFrom()` / `WKTParser::createFromWKT()`
(io.hpp, class `ParsingException`). -/
inductive ParsingException where
  | parsingException (message : String)
deriving DecidableEq, Repr

/-- Exception raised by `IWKTExportable::exportToWKT()` /
`IPROJStringExportable::exportToPROJString()` (io.hpp, class
`FormattingException`). -/
inductive FormattingException where
  | formattingException (message : String)
deriving DecidableEq, Repr

/-- Modelled from the spec: whitespace characters skipped between tokens of the
bracketed grammar (io.cpp is absent from the source tree). -/
def isWKTSpace (c : Char) : Bool :=
  c = ' ' || c = '\t' || c = '\n' || c = '\r'

/-- Modelled from the spec: the characters that terminate a bare token of the
bracketed grammar - brackets, comma, double quote and whitespace
(spec section 6: `node := IDENT ('[' node (',' node)* ']')? | QUOTED_STRING |
NUMBER`). -/
def isWKTDelim (c : Char) : Bool :=
  c = '[' || c = ']' || c = '(' || c = ')' || c = ',' || c = '"' || isWKTSpace c

/-- Modelled from the spec: skip leading whitespace. -/
def skipSpace : List Char → List Char
  | [] => []
  | c :: r => if isWKTSpace c then skipSpace r else c :: r

/-- Modelled from the spec: read the longest run of non-delimiter characters
(the bare token of a keyword, number or bare identifier), returning the token
and the unconsumed remainder. -/
def takeNonDelim : List Char → List Char × List Char
  | [] => ([], [])
  | c :: r =>
    if isWKTDelim c then ([], c :: r)
    else
      let p := takeNonDelim r
      (c :: p.1, p.2)

/-- Modelled from the spec: scan the body of a quoted literal after its opening
quote.  A doubled quote character denotes one literal quote; a single quote
closes the literal; the literal is not tokenized further (spec section 4.1 and
the grammar `QUOTED_STRING := '"' (any-char | '""')* '"'`).  Returns the
unescaped content and the remainder after the closing quote, or `none` when the
literal is unterminated. -/
def parseQuotedBody : List Char → Option (List Char × List Char)
  | [] => none
  | c :: r =>
    if c = '"' then
      match r with
      | '"' :: r2 => (parseQuotedBody r2).map (fun p => ('"' :: p.1, p.2))
      | _ => some ([], r)
    else
      (parseQuotedBody r).map (fun p => (c :: p.1, p.2))

/-- Escape a quoted-literal content: each quote character is doubled
(spec section 4.1). -/
def escapeQuotes : List Char → List Char
  | [] => []
  | c :: r => if c = '"' then '"' :: '"' :: escapeQuotes r else c :: escapeQuotes r

/-- The stored form of a quoted literal inside a `WKTNode` value: the unescaped
content surrounded by the two quote characters. -/
def quoteWrap (content : List Char) : List Char :=
  '"' :: content ++ ['"']

/-- Node in the tree-splitted WKT representation (io.hpp, class `WKTNode`):
a `value` (keyword or literal) and an ordered sequence of children. -/
inductive WKTNode where
  | mk (value : String) (children : List WKTNode)

/-- The node value (io.hpp, `WKTNode::value`). -/
def WKTNode.value : WKTNode → String
  | .mk v _ => v

/-- The ordered children (io.hpp, `WKTNode::children`). -/
def WKTNode.children : WKTNode → List WKTNode
  | .mk _ cs => cs

/-- Modelled from the spec: `WKTNode::lookForChild` (io.hpp declares it
`noexcept`, the implementation is absent) - return the child with the given
name at the requested occurrence index, or `none` (a null pointer) when no such
child exists.  Name matching is exact in this model. -/
def WKTNode.lookForChild (n : WKTNode) (childName : String)
    (occurrence : Nat := 0) : Option WKTNode :=
  (n.children.filter (fun c => decide (c.value = childName))).get? occurrence

/-- Modelled from the spec: `WKTNode::countChildrenOfName` (io.hpp declares it
`noexcept`) - the number of children with the given name, `0` when none
match. -/
def WKTNode.countChildrenOfName (n : WKTNode) (childName : String) : Nat :=
  (n.children.filter (fun c => decide (c.value = childName))).length

/-- Modelled from the spec: the fixed maximum recursion depth of the
bracketed-grammar parser (spec section 4.1: recursion depth is bounded by a
fixed maximum; exceeding it fails with a parse failure). -/
def maxRecLevel : Nat := 16

/-- The parse-failure value reported when nesting exceeds `maxRecLevel`. -/
def tooManyNestingLevels : ParsingException :=
  .parsingException "too many nesting levels"

mutual

/-- Modelled from the spec (section 4.1, recursive-descent bracketed-grammar
parser; io.cpp is absent from the source tree): read an identifier token; if a
bracket follows, parse a comma-separated child list until the matching closing
bracket, else the node is a leaf (bare token or quoted literal).  `recLevel`
is the recursion depth, bounded by `maxRecLevel`; `fuel` is a structural bound
that makes the definition total and is chosen large enough by the top-level
entry point. -/
def parseNode : Nat → Nat → List Char →
    Except ParsingException (WKTNode × List Char)
  | 0, _, _ => .error (.parsingException "internal fuel exhausted")
  | fuel + 1, recLevel, s =>
    if maxRecLevel < recLevel then .error tooManyNestingLevels
    else
      match skipSpace s with
      | [] => .error (.parsingException "unexpected end of string")
      | c :: r =>
        if c = '"' then
          match parseQuotedBody r with
          | none => .error (.parsingException "unbalanced double quote")
          | some (body, r2) =>
            .ok (WKTNode.mk (String.mk (quoteWrap body)) [], r2)
        else
          let p := takeNonDelim (c :: r)
          if p.1 = [] then .error (.parsingException "unexpected character")
          else
            match skipSpace p.2 with
            | [] => .ok (WKTNode.mk (String.mk p.1) [], p.2)
            | c2 :: r2 =>
              if c2 = '[' then parseChildren fuel (recLevel + 1) r2 (String.mk p.1) [] ']'
              else if c2 = '(' then parseChildren fuel (recLevel + 1) r2 (String.mk p.1) [] ')'
              else .ok (WKTNode.mk (String.mk p.1) [], p.2)

/-- Modelled from the spec (section 4.1): parse the comma-separated child list
of a node whose keyword is `value`, until the closing bracket `closeChar`. -/
def parseChildren : Nat → Nat → List Char → String → List WKTNode → Char →
    Except ParsingException (WKTNode × List Char)
  | 0, _, _, _, _, _ => .error (.parsingException "internal fuel exhausted")
  | fuel + 1, recLevel, s, value, acc, closeChar =>
    match parseNode fuel recLevel s with
    | .error e => .error e
    | .ok (child, r) =>
      match skipSpace r with
      | [] => .error (.parsingException "unbalanced bracket")
      | c :: r2 =>
        if c = ',' then parseChildren fuel recLevel r2 value (acc ++ [child]) closeChar
        else if c = closeChar then .ok (WKTNode.mk value (acc ++ [child]), r2)
        else .error (.parsingException "unexpected character in child list")

end

/-- Modelled from the spec: `WKTNode::createFrom` (io.hpp line 588), the
top-level entry of the bracketed-grammar parser.  Parses one node starting at
`indexStart` and fails if trailing non-whitespace content remains
(spec section 4.1). -/
def WKTNode.createFrom (wkt : String) (indexStart : Nat := 0) :
    Except ParsingException WKTNode :=
  let s := wkt.data.drop indexStart
  match parseNode (2 * s.length + 2) 0 s with
  | .error e => .error e
  | .ok (node, rest) =>
    if skipSpace rest = [] then .ok node
    else .error (.parsingException "extra content after end of node")

namespace WKTFormatter

/-- WKT variant (io.hpp, `WKTFormatter::Convention`); `WKT2_2015` is an alias
of `WKT2` in the header and is represented by `WKT2` here. -/
inductive Convention where
  | WKT2
  | WKT2_SIMPLIFIED
  | WKT2_2018
  | WKT2_2018_SIMPLIFIED
  | WKT1_GDAL
  | WKT1_ESRI
deriving DecidableEq, Repr

end WKTFormatter

/-- Modelled from the spec (section 3, FormatterState; the private
implementation behind `PROJ_OPAQUE_PRIVATE_DATA` is absent from the source
tree): the convention fixed at construction, the growable output buffer, the
four scoped-override stacks and the node-nesting stack of
(keyword, has-id) pairs. -/
structure WKTFormatterState where
  convention : WKTFormatter.Convention
  strict : Bool
  buffer : List Char
  outputUnitStack : List Bool
  outputIdStack : List Bool
  axisLinearUnitStack : List String
  axisAngularUnitStack : List String
  stackHasId : List (String × Bool)
deriving DecidableEq, Repr

/-- Modelled from the spec: `WKTFormatter::create` (io.hpp line 207) - a fresh
formatter state, fully determined by the convention. -/
def WKTFormatter.create (convention : WKTFormatter.Convention := .WKT2) :
    WKTFormatterState :=
  { convention := convention
    strict := true
    buffer := []
    outputUnitStack := [true]
    outputIdStack := [true]
    axisLinearUnitStack := ["metre"]
    axisAngularUnitStack := ["degree"]
    stackHasId := [] }

/-- Modelled from the spec (sections 4.2, 5 and 9): the sequence of formatter
calls a domain object's `_exportToWKT` performs.  Each scoped constructor
stands for a matched `push.../pop...` pair (or `startNode`/`endNode`) realized
as a scoped-acquisition guard whose release happens on every exit path,
including when a `FormattingException` is raised inside the body. -/
inductive WKTExport where
  | skip
  | add (s : String)
  | addQuotedString (s : String)
  | raiseFormattingException (message : String)
  | seq (a b : WKTExport)
  | withOutputUnit (outputUnitIn : Bool) (body : WKTExport)
  | withOutputId (outputIdIn : Bool) (body : WKTExport)
  | withAxisLinearUnit (unit : String) (body : WKTExport)
  | withAxisAngularUnit (unit : String) (body : WKTExport)
  | node (keyword : String) (hasId : Bool) (body : WKTExport)

/-- Modelled from the spec: run an export sequence against a formatter state.
Returns the final state together with the `FormattingException` that aborted
the export, if any; every scoped push is popped on both exit paths. -/
def WKTFormatter.run : WKTExport → WKTFormatterState →
    WKTFormatterState × Option FormattingException
  | .skip, st => (st, none)
  | .add s, st => ({ st with buffer := st.buffer ++ s.data }, none)
  | .addQuotedString s, st =>
    ({ st with buffer := st.buffer ++ ('"' :: escapeQuotes s.data ++ ['"']) }, none)
  | .raiseFormattingException msg, st => (st, some (.formattingException msg))
  | .seq a b, st =>
    match WKTFormatter.run a st with
    | (st1, none) => WKTFormatter.run b st1
    | (st1, some e) => (st1, some e)
  | .withOutputUnit bIn body, st =>
    let r := WKTFormatter.run body { st with outputUnitStack := bIn :: st.outputUnitStack }
    ({ r.1 with outputUnitStack := r.1.outputUnitStack.tail }, r.2)
  | .withOutputId bIn body, st =>
    let r := WKTFormatter.run body { st with outputIdStack := bIn :: st.outputIdStack }
    ({ r.1 with outputIdStack := r.1.outputIdStack.tail }, r.2)
  | .withAxisLinearUnit u body, st =>
    let r := WKTFormatter.run body { st with axisLinearUnitStack := u :: st.axisLinearUnitStack }
    ({ r.1 with axisLinearUnitStack := r.1.axisLinearUnitStack.tail }, r.2)
  | .withAxisAngularUnit u body, st =>
    let r := WKTFormatter.run body { st with axisAngularUnitStack := u :: st.axisAngularUnitStack }
    ({ r.1 with axisAngularUnitStack := r.1.axisAngularUnitStack.tail }, r.2)
  | .node keyword hasId body, st =>
    let r := WKTFormatter.run body
      { st with stackHasId := (keyword, hasId) :: st.stackHasId
                buffer := st.buffer ++ keyword.data ++ ['['] }
    match r.2 with
    | none => ({ r.1 with stackHasId := r.1.stackHasId.tail, buffer := r.1.buffer ++ [']'] }, none)
    | some e => ({ r.1 with stackHasId := r.1.stackHasId.tail }, some e)

/-- `WKTFormatter::toString` (io.hpp line 233): the accumulated buffer. -/
def WKTFormatter.toString (st : WKTFormatterState) : String :=
  String.mk st.buffer

/-- The depths of the five scoped stacks of a formatter state
(output-unit, output-id, axis-linear-unit, axis-angular-unit,
node-nesting). -/
def WKTFormatterState.scopeDepths (st : WKTFormatterState) :
    Nat × Nat × Nat × Nat × Nat :=
  (st.outputUnitStack.length, st.outputIdStack.length,
   st.axisLinearUnitStack.length, st.axisAngularUnitStack.length,
   st.stackHasId.length)

/-- Modelled from the spec: `IWKTExportable::exportToWKT` (io.hpp line 481),
the single fallible entry point of the WKT-exportable capability; the
per-object `_exportToWKT` implementation is represented by its sequence of
formatter calls. -/
def exportToWKT (program : WKTExport) (formatter : WKTFormatterState) :
    Except FormattingException String :=
  match WKTFormatter.run program formatter with
  | (st, none) => .ok (WKTFormatter.toString st)
  | (_, some e) => .error e

/-- Modelled from the spec: an ellipsoid description (the domain-object layer
is external to this core, spec section 1); numeric values are kept as their
literal token text, since this core serializes descriptions and performs no
numeric interpretation. -/
structure Ellipsoid where
  name : String
  semiMajorAxis : String
  inverseFlattening : String
deriving DecidableEq, Repr

/-- Modelled from the spec: a prime meridian description. -/
structure PrimeMeridian where
  name : String
  longitude : String
deriving DecidableEq, Repr

/-- The reference meridian: the default restored when a simplified convention
omits the PRIMEM node (io.hpp, `WKT2_SIMPLIFIED` documentation: PRIMEM node
omitted if it is Greenwich). -/
def greenwich : PrimeMeridian :=
  { name := "Greenwich", longitude := "0" }

/-- Modelled from the spec: the identifying attributes of a geographic CRS
(name, datum name, ellipsoid, prime meridian). -/
structure GeographicCRSModel where
  name : String
  datumName : String
  ellipsoid : Ellipsoid
  primeMeridian : PrimeMeridian
deriving DecidableEq, Repr

/-- `WKTFormatter::primeMeridianOmittedIfGreenwich` (io.hpp line 298):
the simplified WKT2 conventions omit the PRIMEM node when it is Greenwich
(io.hpp, `WKT2_SIMPLIFIED` documentation). -/
def WKTFormatter.primeMeridianOmittedIfGreenwich :
    WKTFormatter.Convention → Bool
  | .WKT2_SIMPLIFIED | .WKT2_2018_SIMPLIFIED => true
  | _ => false

/-- The root keyword used for a geographic CRS under each convention
(io.hpp: WKT2_2018 uses GEOGCRS for GeographicCRS; WKT2-2015 uses GEODCRS;
WKT1 uses GEOGCS). -/
def rootGeographicKeyword : WKTFormatter.Convention → String
  | .WKT2 | .WKT2_SIMPLIFIED => "GEODCRS"
  | .WKT2_2018 | .WKT2_2018_SIMPLIFIED => "GEOGCRS"
  | .WKT1_GDAL | .WKT1_ESRI => "GEOGCS"

/-- The ellipsoid keyword under each convention (WKT2 uses ELLIPSOID, WKT1
uses SPHEROID). -/
def ellipsoidKeyword : WKTFormatter.Convention → String
  | .WKT1_GDAL | .WKT1_ESRI => "SPHEROID"
  | _ => "ELLIPSOID"

/-- Modelled from the spec: the conventions under which the modelled
geographic-CRS fragment is expressible without loss.  `WKT1_ESRI` is excluded
because its export morphs object names (`WKTFormatter::morphNameToESRI`,
io.hpp line 288), a lossy renaming outside the modelled fragment. -/
def canExpressGeographicCRS : WKTFormatter.Convention → Bool
  | .WKT1_ESRI => false
  | _ => true

/-- Modelled from the spec: the `_exportToWKT` call sequence of the modelled
geographic CRS: root node, quoted name, DATUM node carrying the ellipsoid, and
the PRIMEM node unless the active convention omits it for Greenwich. -/
def GeographicCRSModel.wktExport (conv : WKTFormatter.Convention)
    (crs : GeographicCRSModel) : WKTExport :=
  .node (rootGeographicKeyword conv) true (
    .seq (.addQuotedString crs.name) (
    .seq (.add ",") (
    .seq (.node "DATUM" true (
      .seq (.addQuotedString crs.datumName) (
      .seq (.add ",") (
      .node (ellipsoidKeyword conv) true (
        .seq (.addQuotedString crs.ellipsoid.name) (
        .seq (.add ",") (
        .seq (.add crs.ellipsoid.semiMajorAxis) (
        .seq (.add ",") (
        .add crs.ellipsoid.inverseFlattening)))))))))
    (if WKTFormatter.primeMeridianOmittedIfGreenwich conv ∧ crs.primeMeridian = greenwich
     then .skip
     else
       .seq (.add ",") (
       .node "PRIMEM" true (
         .seq (.addQuotedString crs.primeMeridian.name) (
         .seq (.add ",") (
         .add crs.primeMeridian.longitude))))))))

/-- `exportToWKT` of the modelled geographic CRS against a formatter. -/
def GeographicCRSModel.exportToWKT (crs : GeographicCRSModel)
    (formatter : WKTFormatterState) : Except FormattingException String :=
  PROJ.exportToWKT (crs.wktExport formatter.convention) formatter

/-- Modelled from the spec: strip the surrounding quote characters from a
stored quoted-literal node value. -/
def unquoteValue (v : String) : Option String :=
  match v.data with
  | '"' :: rest =>
    match rest.getLast? with
    | some '"' => some (String.mk rest.dropLast)
    | _ => none
  | _ => none

/-- Modelled from the spec: construct an ellipsoid description from an
ELLIPSOID (or SPHEROID) tree node. -/
def parseEllipsoidNode (e : WKTNode) : Except ParsingException Ellipsoid :=
  match e.children with
  | [en, an, rfn] =>
    match unquoteValue en.value with
    | some ename => .ok { name := ename, semiMajorAxis := an.value, inverseFlattening := rfn.value }
    | none => .error (.parsingException "ellipsoid name not quoted")
  | _ => .error (.parsingException "malformed ELLIPSOID node")

/-- Modelled from the spec: construct a prime-meridian description from a
PRIMEM tree node. -/
def parsePrimeMeridianNode (p : WKTNode) : Except ParsingException PrimeMeridian :=
  match p.children with
  | [pn, lonn] =>
    match unquoteValue pn.value with
    | some pname => .ok { name := pname, longitude := lonn.value }
    | none => .error (.parsingException "prime meridian name not quoted")
  | _ => .error (.parsingException "malformed PRIMEM node")

/-- Modelled from the spec: construct the datum name and ellipsoid from a
DATUM tree node. -/
def parseDatumNode (d : WKTNode) : Except ParsingException (String × Ellipsoid) :=
  match d.children with
  | dn :: _ =>
    match unquoteValue dn.value with
    | some dname =>
      match d.lookForChild "ELLIPSOID" 0 with
      | some en => (parseEllipsoidNode en).map (fun e => (dname, e))
      | none =>
        match d.lookForChild "SPHEROID" 0 with
        | some en => (parseEllipsoidNode en).map (fun e => (dname, e))
        | none => .error (.parsingException "missing ELLIPSOID node")
    | none => .error (.parsingException "datum name not quoted")
  | [] => .error (.parsingException "empty DATUM node")

/-- The root keywords accepted for a geographic CRS across the recognized
conventions. -/
def geographicRootKeywords : List String :=
  ["GEOGCRS", "GEODCRS", "GEOGCS"]

/-- Modelled from the spec: the construction logic that turns a parsed tree
into the modelled geographic CRS (this construction layer is external to the
core, spec section 1; the PRIMEM node defaults to Greenwich when a simplified
convention omitted it). -/
def parseGeographicCRSModel (t : WKTNode) : Except ParsingException GeographicCRSModel :=
  if t.value ∈ geographicRootKeywords then
    match t.children with
    | nameNode :: _ =>
      match unquoteValue nameNode.value with
      | some crsName =>
        match t.lookForChild "DATUM" 0 with
        | some d =>
          match parseDatumNode d with
          | .ok (dname, ell) =>
            match t.lookForChild "PRIMEM" 0 with
            | some p =>
              (parsePrimeMeridianNode p).map
                (fun pm => { name := crsName, datumName := dname, ellipsoid := ell, primeMeridian := pm })
            | none =>
              .ok { name := crsName, datumName := dname, ellipsoid := ell, primeMeridian := greenwich }
          | .error e => .error e
        | none => .error (.parsingException "missing DATUM node")
      | none => .error (.parsingException "CRS name not quoted")
    | [] => .error (.parsingException "empty CRS node")
  else .error (.parsingException "unexpected root keyword")

/-- Modelled from the spec: `WKTParser::createFromWKT` (io.hpp line 625) on
the modelled geographic-CRS fragment - parse the bracketed text into a tree,
then hand the tree to the construction logic. -/
def WKTParser.createFromWKT (wkt : String) : Except ParsingException GeographicCRSModel :=
  match WKTNode.createFrom wkt with
  | .ok t => parseGeographicCRSModel t
  | .error e => .error e

/-- A string usable as a bare (unquoted) token of the bracketed grammar:
nonempty and free of delimiter characters. -/
def wktTokenOk (s : String) : Bool :=
  !s.data.isEmpty && s.data.all (fun c => !isWKTDelim c)

/-- The numeric-literal fields of the modelled CRS are bare tokens of the
grammar (its name fields are quoted and thus unrestricted). -/
def GeographicCRSModel.wellFormed (crs : GeographicCRSModel) : Bool :=
  wktTokenOk crs.ellipsoid.semiMajorAxis &&
  wktTokenOk crs.ellipsoid.inverseFlattening &&
  wktTokenOk crs.primeMeridian.longitude

namespace WKTParser

/-- Guessed WKT dialect (io.hpp, `WKTParser::WKTGuessedDialect`). -/
inductive WKTGuessedDialect where
  | WKT2_2018
  | WKT2_2015
  | WKT1_GDAL
  | WKT1_ESRI
  | NOT_WKT
deriving DecidableEq, Repr

/-- Modelled from the spec (section 4.1): root keywords that only WKT2-2018
uses. -/
def wkt2_2018RootKeywords : List String :=
  ["GEOGCRS", "BASEGEOGCRS"]

/-- Modelled from the spec (section 4.1): root keywords of WKT2 that are not
2018-specific. -/
def wkt2_2015RootKeywords : List String :=
  ["GEODCRS", "BASEGEODCRS", "PROJCRS", "VERTCRS", "ENGCRS",
   "PARAMETRICCRS", "TIMECRS", "COMPOUNDCRS", "BOUNDCRS"]

/-- Modelled from the spec (section 4.1): legacy WKT1 root keywords. -/
def wkt1RootKeywords : List String :=
  ["GEOGCS", "PROJCS", "GEOCCS", "VERT_CS", "LOCAL_CS", "COMPD_CS"]

/-- The root token of the input and whether an opening bracket follows it
(a recognizable root must be a bracketed keyword, spec section 4.1). -/
def rootKeywordOf (wkt : String) : String × Bool :=
  let s := skipSpace wkt.data
  let p := takeNonDelim s
  (String.mk p.1,
   match skipSpace p.2 with
   | '[' :: _ => true
   | '(' :: _ => true
   | _ => false)

/-- Modelled from the spec (section 4.1): ESRI-specific internal naming used
to distinguish WKT1_ESRI from WKT1_GDAL - a datum name carrying the D_
prefix. -/
def esriDatumMarker (wkt : String) : Bool :=
  decide ("DATUM[\"D_".data <:+: wkt.data)

/-- Whether the input begins with a recognizable bracketed root keyword of any
dialect. -/
def hasRecognizedRootKeyword (wkt : String) : Bool :=
  let p := rootKeywordOf wkt
  p.2 && (decide (p.1 ∈ wkt2_2018RootKeywords) ||
          decide (p.1 ∈ wkt2_2015RootKeywords) ||
          decide (p.1 ∈ wkt1RootKeywords))

/-- Modelled from the spec: `WKTParser::guessDialect` (io.hpp line 643,
declared `noexcept`) - a cheap heuristic probe, not a parse attempt: signature
tokens are checked in priority order and the `NOT_WKT` sentinel is returned
when no recognizable bracketed root keyword is found. -/
def guessDialect (wkt : String) : WKTGuessedDialect :=
  let p := rootKeywordOf wkt
  if !p.2 then .NOT_WKT
  else if p.1 ∈ wkt2_2018RootKeywords then .WKT2_2018
  else if p.1 ∈ wkt2_2015RootKeywords then .WKT2_2015
  else if p.1 ∈ wkt1RootKeywords then
    (if esriDatumMarker wkt then .WKT1_ESRI else .WKT1_GDAL)
  else .NOT_WKT

end WKTParser

namespace PROJStringFormatter

/-- PROJ variant (io.hpp, `PROJStringFormatter::Convention`). -/
inductive Convention where
  | PROJ_5
  | PROJ_4
deriving DecidableEq, Repr

end PROJStringFormatter

/-- Modelled from the spec (section 3, PipelineModel): one pipeline step - a
name, an inversion flag, and ordered parameters; a parameter is a name with an
optional value (a flag when the value is absent). -/
structure Step where
  name : String
  inverted : Bool
  paramValues : List (String × Option String)
deriving DecidableEq, Repr

/-- Modelled from the spec (section 3, PipelineModel; the private state behind
`PROJ_OPAQUE_PRIVATE_DATA` is absent from the source tree): the ordered steps
and the stack of pending inversion marks, each recording the number of steps
present when `startInversion()` ran. -/
structure PROJStringFormatterState where
  convention : PROJStringFormatter.Convention
  steps : List Step
  inversionMarks : List Nat
deriving DecidableEq, Repr

/-- `PROJStringFormatter::create` (io.hpp line 359). -/
def PROJStringFormatter.create
    (conventionIn : PROJStringFormatter.Convention := .PROJ_5) :
    PROJStringFormatterState :=
  { convention := conventionIn, steps := [], inversionMarks := [] }

/-- `PROJStringFormatter::addStep` (io.hpp line 383): start a new,
non-inverted step with no parameters and make it current. -/
def PROJStringFormatter.addStep (st : PROJStringFormatterState)
    (step : String) : PROJStringFormatterState :=
  { st with steps := st.steps ++ [{ name := step, inverted := false, paramValues := [] }] }

/-- `PROJStringFormatter::setCurrentStepInverted` (io.hpp line 385): mark the
current (last) step. -/
def PROJStringFormatter.setCurrentStepInverted (st : PROJStringFormatterState)
    (inverted : Bool) : PROJStringFormatterState :=
  { st with steps :=
      st.steps.dropLast ++
      (match st.steps.getLast? with
       | some s => [{ s with inverted := inverted }]
       | none => []) }

/-- `PROJStringFormatter::addParam` (io.hpp lines 386-397): append a flag
(`val = none`) or a valued parameter to the current step. -/
def PROJStringFormatter.addParam (st : PROJStringFormatterState)
    (paramName : String) (val : Option String := none) : PROJStringFormatterState :=
  { st with steps :=
      st.steps.dropLast ++
      (match st.steps.getLast? with
       | some s => [{ s with paramValues := s.paramValues ++ [(paramName, val)] }]
       | none => []) }

/-- Flip the inversion flag of a step. -/
def Step.flipInversion (s : Step) : Step :=
  { s with inverted := !s.inverted }

/-- `PROJStringFormatter::startInversion` (io.hpp line 374).  Modelled from
the spec (section 4.3): record the number of steps accumulated so far. -/
def PROJStringFormatter.startInversion (st : PROJStringFormatterState) :
    PROJStringFormatterState :=
  { st with inversionMarks := st.steps.length :: st.inversionMarks }

/-- `PROJStringFormatter::stopInversion` (io.hpp line 375).  Modelled from the
spec (section 4.3): the steps accumulated since the matching
`startInversion()` are reversed in order and each has its inversion flag
logically flipped; that transformed view is what subsequent rendering and
appending see.  Without a matching `startInversion()` the call is a no-op. -/
def PROJStringFormatter.stopInversion (st : PROJStringFormatterState) :
    PROJStringFormatterState :=
  match st.inversionMarks with
  | [] => st
  | m :: rest =>
    { st with
      steps := st.steps.take m ++ ((st.steps.drop m).reverse.map Step.flipInversion)
      inversionMarks := rest }

/-- Modelled from the spec (section 4.3): render one parameter as
` +name=value`, or ` +name` for a flag. -/
def renderParam : String × Option String → String
  | (n, none) => " +" ++ n
  | (n, some v) => " +" ++ n ++ "=" ++ v

/-- Modelled from the spec (section 4.3): render one step as
` +step [+inv] params...`. -/
def renderStep (s : Step) : String :=
  " +step" ++ (if s.inverted then " +inv" else "") ++
  String.join (s.paramValues.map renderParam)

/-- `PROJStringFormatter::toString` (io.hpp line 368).  Modelled from the spec
(section 4.3): render `+proj=pipeline` followed by the accumulated steps. -/
def PROJStringFormatter.toString (st : PROJStringFormatterState) : String :=
  "+proj=pipeline" ++ String.join (st.steps.map renderStep)

/-- Object type (io.hpp, `AuthorityFactory::ObjectType`). -/
inductive AuthorityFactory.ObjectType where
  | PRIME_MERIDIAN
  | ELLIPSOID
  | DATUM
  | GEODETIC_REFERENCE_FRAME
  | VERTICAL_REFERENCE_FRAME
  | CRS
  | GEODETIC_CRS
  | GEOCENTRIC_CRS
  | GEOGRAPHIC_CRS
  | GEOGRAPHIC_2D_CRS
  | GEOGRAPHIC_3D_CRS
  | PROJECTED_CRS
  | VERTICAL_CRS
  | COMPOUND_CRS
  | COORDINATE_OPERATION
  | CONVERSION
  | TRANSFORMATION
  | CONCATENATED_OPERATION
deriving DecidableEq, Repr

/-- Modelled from the spec: a constructed domain object as far as this core
observes it - its registry category and name (the domain-object hierarchy is
external, spec section 1). -/
structure BaseObject where
  category : AuthorityFactory.ObjectType
  objectName : String
deriving DecidableEq, Repr

/-- Modelled from the spec (section 4.5): a registry row for a code - either a
well-formed stored definition classified by its `ObjectType` discriminator, or
a malformed stored definition. -/
inductive RegistryEntry where
  | storedObject (category : AuthorityFactory.ObjectType) (objectName : String)
  | malformedDefinition (raw : String)
deriving DecidableEq, Repr

/-- The factory error taxonomy: `FactoryException` (io.hpp line 965) and its
refinement `NoSuchAuthorityCodeException` (io.hpp line 981), which carries the
offending authority and code. -/
inductive FactoryException where
  | factoryException (message : String)
  | noSuchAuthorityCode (message : String) (authority : String) (code : String)
deriving DecidableEq, Repr

/-- `NoSuchAuthorityCodeException::getAuthority` (io.hpp line 992); `none` on
the generic exception, which carries no authority field. -/
def FactoryException.getAuthority : FactoryException → Option String
  | .noSuchAuthorityCode _ a _ => some a
  | .factoryException _ => none

/-- `NoSuchAuthorityCodeException::getAuthorityCode` (io.hpp line 993). -/
def FactoryException.getAuthorityCode : FactoryException → Option String
  | .noSuchAuthorityCode _ _ c => some c
  | .factoryException _ => none

/-- Modelled from the spec (sections 3 and 4.5): the resolver bound to one
authority over a read-only registry, keyed by code. -/
structure AuthorityFactory where
  authority : String
  registry : List (String × RegistryEntry)
deriving DecidableEq, Repr

/-- The registry row for a code, if any. -/
def AuthorityFactory.lookup (f : AuthorityFactory) (code : String) :
    Option RegistryEntry :=
  (f.registry.find? (fun p => decide (p.1 = code))).map (fun p => p.2)

/-- Modelled from the spec: `AuthorityFactory::createObject` (io.hpp line 769)
- look up the row, dispatch on its category discriminator; fail with
`NoSuchAuthorityCodeException` carrying the authority and code when no row
exists, and with the generic `FactoryException` on any other resolution error
(a malformed stored definition). -/
def AuthorityFactory.createObject (f : AuthorityFactory) (code : String) :
    Except FactoryException BaseObject :=
  match f.lookup code with
  | none =>
    .error (.noSuchAuthorityCode ("cannot find matching row for code " ++ code)
      f.authority code)
  | some (.malformedDefinition _) =>
    .error (.factoryException ("malformed definition for code " ++ code))
  | some (.storedObject cat n) => .ok { category := cat, objectName := n }

/-- Modelled from the spec: a typed lookup,
`AuthorityFactory::createGeographicCRS` (io.hpp line 799) - same unknown-code
behaviour; a row of the wrong category is an ordinary resolution error. -/
def AuthorityFactory.createGeographicCRS (f : AuthorityFactory) (code : String) :
    Except FactoryException BaseObject :=
  match f.lookup code with
  | none =>
    .error (.noSuchAuthorityCode ("cannot find matching row for code " ++ code)
      f.authority code)
  | some (.malformedDefinition _) =>
    .error (.factoryException ("malformed definition for code " ++ code))
  | some (.storedObject cat n) =>
    if cat = .GEOGRAPHIC_CRS then .ok { category := cat, objectName := n }
    else .error (.factoryException ("code " ++ code ++ " is not a GeographicCRS"))

/-- The well-formed objects stored in the registry, in registry order. -/
def AuthorityFactory.storedObjects (f : AuthorityFactory) : List BaseObject :=
  f.registry.filterMap (fun p =>
    match p.2 with
    | .storedObject c n => some { category := c, objectName := n }
    | .malformedDefinition _ => none)

/-- Modelled from the spec (section 4.5): the name-search candidates - exact
name matches first; only when there is no exact hit and approximate matching
is on, substring matches. -/
def AuthorityFactory.nameCandidates (f : AuthorityFactory) (name : String)
    (approximateMatch : Bool) : List BaseObject :=
  let exact := f.storedObjects.filter (fun o => decide (o.objectName = name))
  if exact.isEmpty then
    (if approximateMatch then
      f.storedObjects.filter (fun o => decide (name.data <:+: o.objectName.data))
     else [])
  else exact

/-- Modelled from the spec: `AuthorityFactory::createObjectsFromName`
(io.hpp lines 905-910, with the declared default arguments) - candidates are
filtered to `allowedObjectTypes` only when that list is non-empty, and
truncated to `limitResultCount` only when it is non-zero. -/
def AuthorityFactory.createObjectsFromName (f : AuthorityFactory) (name : String)
    (allowedObjectTypes : List AuthorityFactory.ObjectType := [])
    (approximateMatch : Bool := true) (limitResultCount : Nat := 0) :
    List BaseObject :=
  let candidates := f.nameCandidates name approximateMatch
  let filtered :=
    if allowedObjectTypes.isEmpty then candidates
    else candidates.filter (fun o => decide (o.category ∈ allowedObjectTypes))
  if limitResultCount = 0 then filtered else filtered.take limitResultCount

/-- A family of adversarially nested inputs for the bracketed grammar:
`nestedWKT n` is the text `A[A[...A[0]...]]` with `n` opening brackets. -/
def nestedWKT : Nat → List Char
  | 0 => ['0']
  | n + 1 => 'A' :: '[' :: nestedWKT n ++ [']']

/-- A concrete geographic CRS description used as a fixture. -/
def wgs84 : GeographicCRSModel :=
  { name := "WGS 84"
    datumName := "World Geodetic System 1984"
    ellipsoid :=
      { name := "WGS 84", semiMajorAxis := "6378137", inverseFlattening := "298.257223563" }
    primeMeridian := greenwich }

/-- A concrete resolver fixture over a two-row registry. -/
def epsgFixture : AuthorityFactory :=
  { authority := "EPSG"
    registry :=
      [("4326", .storedObject .GEOGRAPHIC_CRS "WGS 84"),
       ("9999", .malformedDefinition "junk")] }

/-- The character sequence the WKT export of the modelled geographic CRS
produces under a convention (proved equal to the formatter run in
`export_run_chars`): the root node, the quoted CRS name, the DATUM node with
the quoted datum name and the ellipsoid node, and - unless the convention
omits it for Greenwich - the PRIMEM node. -/
def wktChars (conv : WKTFormatter.Convention) (crs : GeographicCRSModel) : List Char :=
  let tail : List Char :=
    if WKTFormatter.primeMeridianOmittedIfGreenwich conv ∧ crs.primeMeridian = greenwich then
      [']']
    else
      ',' :: ("PRIMEM".data ++ '[' :: ('"' :: (escapeQuotes crs.primeMeridian.name.data ++ '"' ::
        (',' :: (crs.primeMeridian.longitude.data ++ ']' :: [']'])))))
  (rootGeographicKeyword conv).data ++ '[' :: ('"' :: (escapeQuotes crs.name.data ++ '"' ::
    (',' :: ("DATUM".data ++ '[' :: ('"' :: (escapeQuotes crs.datumName.data ++ '"' ::
      (',' :: ((ellipsoidKeyword conv).data ++ '[' :: ('"' :: (escapeQuotes crs.ellipsoid.name.data ++ '"' ::
        (',' :: (crs.ellipsoid.semiMajorAxis.data ++ ',' ::
          (crs.ellipsoid.inverseFlattening.data ++ ']' :: (']' :: tail))))))))))))))

/-- Unfolding equation for `parseQuotedBody` on a non-empty input, with the
inner one-character lookahead expressed through `head?` and `tail`. -/
theorem parseQuotedBody_cons (c : Char) (r : List Char) :
    parseQuotedBody (c :: r) =
      (if c = '"' then
        if r.head? = some '"' then (parseQuotedBody r.tail).map (fun p => ('"' :: p.1, p.2))
        else some ([], r)
      else (parseQuotedBody r).map (fun p => (c :: p.1, p.2))) := by
  cases r with
  | nil =>
    rw [parseQuotedBody.eq_3 c [] (by intro r2 h; cases h)]
    simp
  | cons c2 r2 =>
    by_cases hc2 : c2 = '"'
    · subst hc2
      rw [parseQuotedBody.eq_2]
      simp
    · rw [parseQuotedBody.eq_3 c (c2 :: r2)
        (by intro r3 h; injection h with h1 _; exact hc2 h1)]
      simp [hc2]

/-- The quoted-literal scanner undoes quote escaping: scanning the escaped form
of any content followed by the closing quote returns the content verbatim and
stops right after that closing quote. -/
theorem parseQuotedBody_escape (content : List Char) :
    ∀ rest : List Char, rest.head? ≠ some '"' →
      parseQuotedBody (escapeQuotes content ++ '"' :: rest) = some (content, rest) := by
  induction content with
  | nil =>
    intro rest h
    simp only [escapeQuotes, List.nil_append, parseQuotedBody_cons, if_pos rfl]
    simp [h]
  | cons c cs ih =>
    intro rest h
    by_cases hc : c = '"'
    · subst hc
      simp only [escapeQuotes, reduceIte, List.cons_append]
      rw [parseQuotedBody_cons]
      simp only [reduceIte, List.head?_cons, List.tail_cons]
      simp [ih rest h]
    · simp only [escapeQuotes, if_neg hc, List.cons_append]
      rw [parseQuotedBody_cons]
      simp [hc, ih rest h]

/-- C2: on a `PROJStringFormatter` in which steps A then B were added (each
optionally marked via `setCurrentStepInverted`) inside a
`startInversion()`/`stopInversion()` bracket, `stopInversion()` leaves the step
sequence with the order of A and B reversed and each step's inversion flag
flipped relative to its pre-toggle value; rendering and appending operate on
the step sequence, hence observe this transformed view. -/
theorem proj_string_formatter_inversion_reverses_and_flips
    (st : PROJStringFormatterState) (nameA nameB : String) (invA invB : Bool) :
    (PROJStringFormatter.stopInversion
      (PROJStringFormatter.setCurrentStepInverted
        (PROJStringFormatter.addStep
          (PROJStringFormatter.setCurrentStepInverted
            (PROJStringFormatter.addStep (PROJStringFormatter.startInversion st) nameA)
            invA)
          nameB)
        invB)).steps =
      st.steps ++ [{ name := nameB, inverted := !invB, paramValues := [] },
                   { name := nameA, inverted := !invA, paramValues := [] }] := by
  simp only [PROJStringFormatter.startInversion, PROJStringFormatter.addStep,
    PROJStringFormatter.setCurrentStepInverted, PROJStringFormatter.stopInversion,
    List.dropLast_concat, List.getLast?_concat]
  simp [Step.flipInversion, List.take_left, List.drop_left, List.append_assoc]

/-- C3: for every export call sequence and every starting state, running it
returns every one of the five scoped stacks of the `WKTFormatter` to its
initial depth, on the success path and on the path aborted by a
`FormattingException` alike; in particular the state seen by `toString()`
after an export has balanced stacks and no state leaks into a sibling export
sharing the instance. -/
theorem wkt_formatter_scope_stacks_balanced :
    ∀ (program : WKTExport) (st : WKTFormatterState),
      ((WKTFormatter.run program st).1).scopeDepths = st.scopeDepths := by
  intro program
  induction program with
  | skip => intro st; rfl
  | add s => intro st; rfl
  | addQuotedString s => intro st; rfl
  | raiseFormattingException msg => intro st; rfl
  | seq a b iha ihb =>
    intro st
    simp only [WKTFormatter.run]
    rcases h : WKTFormatter.run a st with ⟨st1, r⟩
    have ha := iha st
    rw [h] at ha
    cases r with
    | none => simpa [ha] using ihb st1
    | some e => simpa using ha
  | withOutputUnit bIn body ih =>
    intro st
    simp only [WKTFormatter.run]
    have h := ih { st with outputUnitStack := bIn :: st.outputUnitStack }
    simp only [WKTFormatterState.scopeDepths, List.length_cons, List.length_tail,
      Prod.mk.injEq] at h ⊢
    obtain ⟨h1, h2, h3, h4, h5⟩ := h
    omega
  | withOutputId bIn body ih =>
    intro st
    simp only [WKTFormatter.run]
    have h := ih { st with outputIdStack := bIn :: st.outputIdStack }
    simp only [WKTFormatterState.scopeDepths, List.length_cons, List.length_tail,
      Prod.mk.injEq] at h ⊢
    obtain ⟨h1, h2, h3, h4, h5⟩ := h
    omega
  | withAxisLinearUnit u body ih =>
    intro st
    simp only [WKTFormatter.run]
    have h := ih { st with axisLinearUnitStack := u :: st.axisLinearUnitStack }
    simp only [WKTFormatterState.scopeDepths, List.length_cons, List.length_tail,
      Prod.mk.injEq] at h ⊢
    obtain ⟨h1, h2, h3, h4, h5⟩ := h
    omega
  | withAxisAngularUnit u body ih =>
    intro st
    simp only [WKTFormatter.run]
    have h := ih { st with axisAngularUnitStack := u :: st.axisAngularUnitStack }
    simp only [WKTFormatterState.scopeDepths, List.length_cons, List.length_tail,
      Prod.mk.injEq] at h ⊢
    obtain ⟨h1, h2, h3, h4, h5⟩ := h
    omega
  | node keyword hasId body ih =>
    intro st
    simp only [WKTFormatter.run]
    rcases hr : WKTFormatter.run body { st with stackHasId := (keyword, hasId) :: st.stackHasId, buffer := st.buffer ++ keyword.data ++ ['['] } with ⟨st2, r⟩
    have h := ih { st with stackHasId := (keyword, hasId) :: st.stackHasId, buffer := st.buffer ++ keyword.data ++ ['['] }
    rw [hr] at h
    cases r with
    | none =>
      simp only [WKTFormatterState.scopeDepths, List.length_cons, List.length_tail,
        Prod.mk.injEq] at h ⊢
      obtain ⟨h1, h2, h3, h4, h5⟩ := h
      omega
    | some e =>
      simp only [WKTFormatterState.scopeDepths, List.length_cons, List.length_tail,
        Prod.mk.injEq] at h ⊢
      obtain ⟨h1, h2, h3, h4, h5⟩ := h
      omega

/-- C4: with no registry row for a code, `createObject` and the typed
`createGeographicCRS` fail with `NoSuchAuthorityCodeException` carrying exactly
the bound authority and the offending code as its retrievable fields - not
with the generic `FactoryException`; a malformed stored definition instead
fails with the generic `FactoryException`. -/
theorem authority_factory_unknown_code_distinction
    (f : AuthorityFactory) (code : String) :
    (f.lookup code = none →
      ∃ msg, f.createObject code = .error (.noSuchAuthorityCode msg f.authority code) ∧
        FactoryException.getAuthority (.noSuchAuthorityCode msg f.authority code) = some f.authority ∧
        FactoryException.getAuthorityCode (.noSuchAuthorityCode msg f.authority code) = some code) ∧
    (f.lookup code = none →
      ∃ msg, f.createGeographicCRS code = .error (.noSuchAuthorityCode msg f.authority code)) ∧
    (∀ raw, f.lookup code = some (.malformedDefinition raw) →
      ∃ msg, f.createObject code = .error (.factoryException msg)) := by
  refine ⟨fun h => ?_, fun h => ?_, fun raw h => ?_⟩
  · exact ⟨"cannot find matching row for code " ++ code,
      by simp [AuthorityFactory.createObject, h], rfl, rfl⟩
  · exact ⟨"cannot find matching row for code " ++ code,
      by simp [AuthorityFactory.createGeographicCRS, h]⟩
  · exact ⟨"malformed definition for code " ++ code,
      by simp [AuthorityFactory.createObject, h]⟩

/-- C4 witness: on the concrete fixture, code 4979 has no row and both lookups
report it as an unknown code with the exact authority and code; code 9999 has
a malformed row and fails generically. -/
theorem authority_factory_unknown_code_distinction_witness :
    (∃ msg, epsgFixture.createObject "4979" =
      .error (.noSuchAuthorityCode msg epsgFixture.authority "4979") ∧
      FactoryException.getAuthority (.noSuchAuthorityCode msg epsgFixture.authority "4979") =
        some epsgFixture.authority ∧
      FactoryException.getAuthorityCode (.noSuchAuthorityCode msg epsgFixture.authority "4979") =
        some "4979") ∧
    (∃ msg, epsgFixture.createGeographicCRS "4979" =
      .error (.noSuchAuthorityCode msg epsgFixture.authority "4979")) ∧
    (∃ msg, epsgFixture.createObject "9999" = .error (.factoryException msg)) :=
  ⟨(authority_factory_unknown_code_distinction epsgFixture "4979").1 (by decide),
   (authority_factory_unknown_code_distinction epsgFixture "4979").2.1 (by decide),
   (authority_factory_unknown_code_distinction epsgFixture "9999").2.2 "junk" (by decide)⟩

/-- C5: the recursion depth of the bracketed-grammar parser is bounded by the
fixed maximum `maxRecLevel`: any call whose depth exceeds the bound fails
immediately with the depth `ParsingException` regardless of input, the
17-times-nested input fails with exactly that failure, and the nesting at the
bound still parses; the parser is a total function by construction. -/
theorem wkt_parser_recursion_depth_bounded :
    (∀ (fuel extra : Nat) (s : List Char),
      parseNode (fuel + 1) (maxRecLevel + 1 + extra) s = .error tooManyNestingLevels) ∧
    WKTNode.createFrom (String.mk (nestedWKT 17)) = .error tooManyNestingLevels ∧
    (WKTNode.createFrom (String.mk (nestedWKT 16))).isOk = true := by
  refine ⟨fun fuel extra s => ?_, by rfl, by rfl⟩
  have h : maxRecLevel < maxRecLevel + 1 + extra := by omega
  simp [parseNode, h]

/-- C6: `guessDialect` is a total probe: it answers `WKT2_2018` on a
`GEOGCRS[...]` input, `WKT1_GDAL` on a `GEOGCS[...]` input, the `NOT_WKT`
sentinel on text that is not WKT, and `NOT_WKT` on every input lacking a
recognizable bracketed root keyword. -/
theorem wkt_parser_guess_dialect_probe :
    WKTParser.guessDialect "GEOGCRS[\"WGS 84\", 1]" = .WKT2_2018 ∧
    WKTParser.guessDialect "GEOGCS[\"WGS 84\", 1]" = .WKT1_GDAL ∧
    WKTParser.guessDialect "not wkt at all" = .NOT_WKT ∧
    (∀ wkt : String, WKTParser.hasRecognizedRootKeyword wkt = false →
      WKTParser.guessDialect wkt = .NOT_WKT) := by
  refine ⟨by rfl, by rfl, by rfl, fun wkt h => ?_⟩
  unfold WKTParser.hasRecognizedRootKeyword at h
  unfold WKTParser.guessDialect
  by_cases hb : (WKTParser.rootKeywordOf wkt).2
  · simp only [hb, Bool.true_and] at h
    simp only [Bool.or_eq_false_iff, decide_eq_false_iff_not] at h
    simp [hb, h.1.1, h.1.2, h.2]
  · simp only [Bool.not_eq_true] at hb
    simp [hb]

/-- C6 witness: the unrecognized-root fallback applied at a concrete input. -/
theorem wkt_parser_guess_dialect_probe_witness :
    WKTParser.guessDialect "hello world" = .NOT_WKT :=
  wkt_parser_guess_dialect_probe.2.2.2 "hello world" (by rfl)

/-- C8: formatting an object with two fresh `WKTFormatter` instances created
with the same convention yields byte-identical results - the export is a
function of the object and the convention only. -/
theorem wkt_export_deterministic_for_fresh_formatters
    (conv : WKTFormatter.Convention) (crs : GeographicCRSModel)
    (f1 f2 : WKTFormatterState)
    (h1 : f1 = WKTFormatter.create conv) (h2 : f2 = WKTFormatter.create conv) :
    crs.exportToWKT f1 = crs.exportToWKT f2 := by
  subst h1; subst h2; rfl

/-- C8 witness: two fresh WKT2 formatters render the fixture identically. -/
theorem wkt_export_deterministic_for_fresh_formatters_witness :
    wgs84.exportToWKT (WKTFormatter.create .WKT2) =
      wgs84.exportToWKT (WKTFormatter.create .WKT2) :=
  wkt_export_deterministic_for_fresh_formatters .WKT2 wgs84
    (WKTFormatter.create .WKT2) (WKTFormatter.create .WKT2) rfl rfl

/-- C9: `lookForChild` and `countChildrenOfName` are total functions (the
header declares both `noexcept`); when no child carries the requested name,
`lookForChild` returns the null result at every occurrence index and
`countChildrenOfName` returns zero. -/
theorem wkt_node_look_for_child_absent
    (n : WKTNode) (childName : String) (occurrence : Nat)
    (h : ∀ c ∈ n.children, c.value ≠ childName) :
    n.lookForChild childName occurrence = none ∧
    n.countChildrenOfName childName = 0 := by
  have hf : n.children.filter (fun c => decide (c.value = childName)) = [] := by
    simp [List.filter_eq_nil_iff]
    exact h
  constructor
  · simp [WKTNode.lookForChild, hf]
  · simp [WKTNode.countChildrenOfName, hf]

/-- C9 witness: a concrete node with no child named ID. -/
theorem wkt_node_look_for_child_absent_witness :
    (WKTNode.mk "GEOGCRS" [WKTNode.mk "DATUM" []]).lookForChild "ID" 0 = none ∧
    (WKTNode.mk "GEOGCRS" [WKTNode.mk "DATUM" []]).countChildrenOfName "ID" = 0 :=
  wkt_node_look_for_child_absent (WKTNode.mk "GEOGCRS" [WKTNode.mk "DATUM" []]) "ID" 0
    (by intro c hc; simp [WKTNode.children] at hc; subst hc; simp [WKTNode.value])

/-- C10: with its declared defaults - empty `allowedObjectTypes` and
`limitResultCount = 0` - `createObjectsFromName` applies no category filter
and no result bound: it returns the full candidate list, and every result
produced under any category filter and any bound is contained in the default
result. -/
theorem create_objects_from_name_defaults_widest
    (f : AuthorityFactory) (name : String) (approximateMatch : Bool) :
    (f.createObjectsFromName name [] approximateMatch 0 =
      f.nameCandidates name approximateMatch) ∧
    (∀ (allowedObjectTypes : List AuthorityFactory.ObjectType) (limitResultCount : Nat),
      f.createObjectsFromName name allowedObjectTypes approximateMatch limitResultCount ⊆
        f.createObjectsFromName name [] approximateMatch 0) := by
  constructor
  · rfl
  · intro types k x hx
    simp only [AuthorityFactory.createObjectsFromName, List.isEmpty_nil, if_true] at hx ⊢
    have hx2 : x ∈ (if types = [] then f.nameCandidates name approximateMatch
        else (f.nameCandidates name approximateMatch).filter
          (fun o => decide (o.category ∈ types))) := by
      by_cases hk : k = 0
      · simpa [hk] using hx
      · simp [hk] at hx
        exact List.take_subset _ _ hx
    by_cases ht : types = []
    · simpa [ht] using hx2
    · simp [ht, List.mem_filter] at hx2
      exact hx2.1

theorem isWKTSpace_of_delim_false {c : Char} (h : isWKTDelim c = false) :
    isWKTSpace c = false := by
  simp only [isWKTDelim, Bool.or_eq_false_iff] at h
  exact h.2

theorem ne_quote_of_delim_false {c : Char} (h : isWKTDelim c = false) : c ≠ '"' := by
  simp only [isWKTDelim, Bool.or_eq_false_iff, decide_eq_false_iff_not] at h
  exact h.1.2

theorem skipSpace_cons_of_nonspace {c : Char} (r : List Char)
    (h : isWKTSpace c = false) : skipSpace (c :: r) = c :: r := by
  simp [skipSpace, h]

theorem takeNonDelim_split (t : List Char) (r : List Char)
    (ht : ∀ c ∈ t, isWKTDelim c = false)
    (hr : ∀ c, r.head? = some c → isWKTDelim c = true) :
    takeNonDelim (t ++ r) = (t, r) := by
  induction t with
  | nil =>
    cases r with
    | nil => rfl
    | cons c r2 => simp [takeNonDelim, hr c rfl]
  | cons c t2 ih =>
    have hc : isWKTDelim c = false := ht c (by simp)
    simp only [List.cons_append, takeNonDelim, hc, Bool.false_eq_true, if_false,
      List.append_eq]
    rw [ih (fun x hx => ht x (by simp [hx]))]

theorem parseNode_quoted_leaf (f lvl : Nat) (content rest : List Char)
    (hlvl : lvl ≤ maxRecLevel) (hrest : rest.head? ≠ some '"') :
    parseNode (f + 1) lvl ('"' :: (escapeQuotes content ++ '"' :: rest)) =
      .ok (WKTNode.mk (String.mk (quoteWrap content)) [], rest) := by
  have hguard : ¬ (maxRecLevel < lvl) := by omega
  simp only [parseNode, hguard, if_false]
  rw [skipSpace_cons_of_nonspace _ (by decide)]
  simp [parseQuotedBody_escape content rest hrest]

theorem parseNode_token_leaf (f lvl : Nat) (tok rest : List Char)
    (hlvl : lvl ≤ maxRecLevel) (htne : tok ≠ [])
    (ht : ∀ c ∈ tok, isWKTDelim c = false)
    (hrest : rest.head? = some ',' ∨ rest.head? = some ']') :
    parseNode (f + 1) lvl (tok ++ rest) = .ok (WKTNode.mk (String.mk tok) [], rest) := by
  have hguard : ¬ (maxRecLevel < lvl) := by omega
  cases tok with
  | nil => exact absurd rfl htne
  | cons c t2 =>
    have hc : isWKTDelim c = false := ht c (by simp)
    have hcs : isWKTSpace c = false := isWKTSpace_of_delim_false hc
    have hcq : c ≠ '"' := ne_quote_of_delim_false hc
    simp only [parseNode, hguard, if_false, List.cons_append]
    rw [skipSpace_cons_of_nonspace _ hcs]
    simp only [hcq, if_false]
    rw [show (c :: (t2 ++ rest)) = ((c :: t2) ++ rest) from rfl,
      takeNonDelim_split (c :: t2) rest ht
        (fun x hx => by
          rcases hrest with h | h <;> rw [h] at hx <;>
            · cases hx; decide)]
    simp only [reduceCtorEq, if_false]
    rcases hrest with h | h <;>
    · cases rest with
      | nil => simp at h
      | cons c2 r2 =>
        simp only [List.head?_cons, Option.some.injEq] at h
        subst h
        rw [skipSpace_cons_of_nonspace _ (by decide)]
        simp

theorem parseChildren_step (f lvl : Nat) (s : List Char) (value : String)
    (acc : List WKTNode) (closeChar : Char) (child : WKTNode) (r r2 : List Char)
    (h1 : parseNode f lvl s = .ok (child, r)) (h2 : skipSpace r = ',' :: r2) :
    parseChildren (f + 1) lvl s value acc closeChar =
      parseChildren f lvl r2 value (acc ++ [child]) closeChar := by
  simp [parseChildren, h1, h2]

theorem parseChildren_close (f lvl : Nat) (s : List Char) (value : String)
    (acc : List WKTNode) (closeChar : Char) (child : WKTNode) (r r2 : List Char)
    (h1 : parseNode f lvl s = .ok (child, r)) (h2 : skipSpace r = closeChar :: r2)
    (h3 : closeChar ≠ ',') :
    parseChildren (f + 1) lvl s value acc closeChar =
      .ok (WKTNode.mk value (acc ++ [child]), r2) := by
  simp [parseChildren, h1, h2, h3]

theorem parseNode_bracketed (f lvl : Nat) (kw rest : List Char)
    (hlvl : lvl ≤ maxRecLevel) (hkw : kw ≠ [])
    (ht : ∀ c ∈ kw, isWKTDelim c = false) :
    parseNode (f + 1) lvl (kw ++ '[' :: rest) =
      parseChildren f (lvl + 1) rest (String.mk kw) [] ']' := by
  have hguard : ¬ (maxRecLevel < lvl) := by omega
  cases kw with
  | nil => exact absurd rfl hkw
  | cons c t2 =>
    have hc : isWKTDelim c = false := ht c (by simp)
    have hcs : isWKTSpace c = false := isWKTSpace_of_delim_false hc
    have hcq : c ≠ '"' := ne_quote_of_delim_false hc
    simp only [parseNode, hguard, if_false, List.cons_append]
    rw [skipSpace_cons_of_nonspace _ hcs]
    simp only [hcq, if_false]
    rw [show (c :: (t2 ++ '[' :: rest)) = ((c :: t2) ++ '[' :: rest) from rfl,
      takeNonDelim_split (c :: t2) ('[' :: rest) ht
        (fun x hx => by cases hx; decide)]
    simp only [reduceCtorEq, if_false]
    rw [skipSpace_cons_of_nonspace _ (by decide)]
    simp

theorem parse_ellipsoid_chars (f lvl : Nat) (kw en a rf rest : List Char)
    (hlvl : lvl + 1 ≤ maxRecLevel)
    (hkw : kw ≠ []) (hkwt : ∀ c ∈ kw, isWKTDelim c = false)
    (ha : a ≠ []) (hat : ∀ c ∈ a, isWKTDelim c = false)
    (hrf : rf ≠ []) (hrft : ∀ c ∈ rf, isWKTDelim c = false) :
    parseNode (f + 5) lvl
        (kw ++ '[' :: ('"' :: (escapeQuotes en ++ '"' ::
          (',' :: (a ++ ',' :: (rf ++ ']' :: rest)))))) =
      .ok (WKTNode.mk (String.mk kw)
        [WKTNode.mk (String.mk (quoteWrap en)) [],
         WKTNode.mk (String.mk a) [],
         WKTNode.mk (String.mk rf) []], rest) := by
  rw [parseNode_bracketed (f + 4) lvl kw _ (by omega) hkw hkwt]
  have e1 : parseNode (f + 3) (lvl + 1)
      ('"' :: (escapeQuotes en ++ '"' :: (',' :: (a ++ ',' :: (rf ++ ']' :: rest))))) =
      .ok (WKTNode.mk (String.mk (quoteWrap en)) [], ',' :: (a ++ ',' :: (rf ++ ']' :: rest))) :=
    parseNode_quoted_leaf (f + 2) (lvl + 1) en _ hlvl (by simp)
  rw [parseChildren_step (f + 3) (lvl + 1) _ _ _ _ _ _ _ e1
    (skipSpace_cons_of_nonspace _ (by decide))]
  have e2 : parseNode (f + 2) (lvl + 1) (a ++ ',' :: (rf ++ ']' :: rest)) =
      .ok (WKTNode.mk (String.mk a) [], ',' :: (rf ++ ']' :: rest)) :=
    parseNode_token_leaf (f + 1) (lvl + 1) a _ hlvl ha hat (Or.inl rfl)
  rw [parseChildren_step (f + 2) (lvl + 1) _ _ _ _ _ _ _ e2
    (skipSpace_cons_of_nonspace _ (by decide))]
  have e3 : parseNode (f + 1) (lvl + 1) (rf ++ ']' :: rest) =
      .ok (WKTNode.mk (String.mk rf) [], ']' :: rest) :=
    parseNode_token_leaf f (lvl + 1) rf _ hlvl hrf hrft (Or.inr rfl)
  rw [parseChildren_close (f + 1) (lvl + 1) _ _ _ _ _ _ _ e3
    (skipSpace_cons_of_nonspace _ (by decide)) (by decide)]
  simp

theorem parse_datum_chars (f lvl : Nat) (kw dn ekw en a rf rest : List Char)
    (hlvl : lvl + 2 ≤ maxRecLevel)
    (hkw : kw ≠ []) (hkwt : ∀ c ∈ kw, isWKTDelim c = false)
    (hekw : ekw ≠ []) (hekwt : ∀ c ∈ ekw, isWKTDelim c = false)
    (ha : a ≠ []) (hat : ∀ c ∈ a, isWKTDelim c = false)
    (hrf : rf ≠ []) (hrft : ∀ c ∈ rf, isWKTDelim c = false) :
    parseNode (f + 8) lvl
        (kw ++ '[' :: ('"' :: (escapeQuotes dn ++ '"' ::
          (',' :: (ekw ++ '[' :: ('"' :: (escapeQuotes en ++ '"' ::
            (',' :: (a ++ ',' :: (rf ++ ']' :: (']' :: rest))))))))))) =
      .ok (WKTNode.mk (String.mk kw)
        [WKTNode.mk (String.mk (quoteWrap dn)) [],
         WKTNode.mk (String.mk ekw)
           [WKTNode.mk (String.mk (quoteWrap en)) [],
            WKTNode.mk (String.mk a) [],
            WKTNode.mk (String.mk rf) []]], rest) := by
  rw [parseNode_bracketed (f + 7) lvl kw _ (by omega) hkw hkwt]
  have e1 : parseNode (f + 6) (lvl + 1)
      ('"' :: (escapeQuotes dn ++ '"' ::
        (',' :: (ekw ++ '[' :: ('"' :: (escapeQuotes en ++ '"' ::
          (',' :: (a ++ ',' :: (rf ++ ']' :: (']' :: rest)))))))))) =
      .ok (WKTNode.mk (String.mk (quoteWrap dn)) [],
        ',' :: (ekw ++ '[' :: ('"' :: (escapeQuotes en ++ '"' ::
          (',' :: (a ++ ',' :: (rf ++ ']' :: (']' :: rest)))))))) :=
    parseNode_quoted_leaf (f + 5) (lvl + 1) dn _ (by omega) (by simp)
  rw [parseChildren_step (f + 6) (lvl + 1) _ _ _ _ _ _ _ e1
    (skipSpace_cons_of_nonspace _ (by decide))]
  have e2 : parseNode (f + 5) (lvl + 1)
      (ekw ++ '[' :: ('"' :: (escapeQuotes en ++ '"' ::
        (',' :: (a ++ ',' :: (rf ++ ']' :: (']' :: rest))))))) =
      .ok (WKTNode.mk (String.mk ekw)
        [WKTNode.mk (String.mk (quoteWrap en)) [],
         WKTNode.mk (String.mk a) [],
         WKTNode.mk (String.mk rf) []], ']' :: rest) :=
    parse_ellipsoid_chars f (lvl + 1) ekw en a rf (']' :: rest) hlvl hekw hekwt ha hat hrf hrft
  rw [parseChildren_close (f + 5) (lvl + 1) _ _ _ _ _ _ _ e2
    (skipSpace_cons_of_nonspace _ (by decide)) (by decide)]
  simp

theorem parse_primem_chars (f lvl : Nat) (kw pn lon rest : List Char)
    (hlvl : lvl + 1 ≤ maxRecLevel)
    (hkw : kw ≠ []) (hkwt : ∀ c ∈ kw, isWKTDelim c = false)
    (hlon : lon ≠ []) (hlont : ∀ c ∈ lon, isWKTDelim c = false) :
    parseNode (f + 4) lvl
        (kw ++ '[' :: ('"' :: (escapeQuotes pn ++ '"' :: (',' :: (lon ++ ']' :: rest))))) =
      .ok (WKTNode.mk (String.mk kw)
        [WKTNode.mk (String.mk (quoteWrap pn)) [],
         WKTNode.mk (String.mk lon) []], rest) := by
  rw [parseNode_bracketed (f + 3) lvl kw _ (by omega) hkw hkwt]
  have e1 : parseNode (f + 2) (lvl + 1)
      ('"' :: (escapeQuotes pn ++ '"' :: (',' :: (lon ++ ']' :: rest)))) =
      .ok (WKTNode.mk (String.mk (quoteWrap pn)) [], ',' :: (lon ++ ']' :: rest)) :=
    parseNode_quoted_leaf (f + 1) (lvl + 1) pn _ hlvl (by simp)
  rw [parseChildren_step (f + 2) (lvl + 1) _ _ _ _ _ _ _ e1
    (skipSpace_cons_of_nonspace _ (by decide))]
  have e2 : parseNode (f + 1) (lvl + 1) (lon ++ ']' :: rest) =
      .ok (WKTNode.mk (String.mk lon) [], ']' :: rest) :=
    parseNode_token_leaf f (lvl + 1) lon _ hlvl hlon hlont (Or.inr rfl)
  rw [parseChildren_close (f + 1) (lvl + 1) _ _ _ _ _ _ _ e2
    (skipSpace_cons_of_nonspace _ (by decide)) (by decide)]
  simp

theorem parse_geogcrs_chars_with_primem (f lvl : Nat)
    (rkw nm dkw dn ekw en a rf pkw pn lon rest : List Char)
    (hlvl : lvl + 3 ≤ maxRecLevel)
    (hrkw : rkw ≠ []) (hrkwt : ∀ c ∈ rkw, isWKTDelim c = false)
    (hdkw : dkw ≠ []) (hdkwt : ∀ c ∈ dkw, isWKTDelim c = false)
    (hekw : ekw ≠ []) (hekwt : ∀ c ∈ ekw, isWKTDelim c = false)
    (ha : a ≠ []) (hat : ∀ c ∈ a, isWKTDelim c = false)
    (hrf : rf ≠ []) (hrft : ∀ c ∈ rf, isWKTDelim c = false)
    (hpkw : pkw ≠ []) (hpkwt : ∀ c ∈ pkw, isWKTDelim c = false)
    (hlon : lon ≠ []) (hlont : ∀ c ∈ lon, isWKTDelim c = false) :
    parseNode (f + 11) lvl
        (rkw ++ '[' :: ('"' :: (escapeQuotes nm ++ '"' ::
          (',' :: (dkw ++ '[' :: ('"' :: (escapeQuotes dn ++ '"' ::
            (',' :: (ekw ++ '[' :: ('"' :: (escapeQuotes en ++ '"' ::
              (',' :: (a ++ ',' :: (rf ++ ']' :: (']' ::
                (',' :: (pkw ++ '[' :: ('"' :: (escapeQuotes pn ++ '"' ::
                  (',' :: (lon ++ ']' :: (']' :: rest)))))))))))))))))))))) =
      .ok (WKTNode.mk (String.mk rkw)
        [WKTNode.mk (String.mk (quoteWrap nm)) [],
         WKTNode.mk (String.mk dkw)
           [WKTNode.mk (String.mk (quoteWrap dn)) [],
            WKTNode.mk (String.mk ekw)
              [WKTNode.mk (String.mk (quoteWrap en)) [],
               WKTNode.mk (String.mk a) [],
               WKTNode.mk (String.mk rf) []]],
         WKTNode.mk (String.mk pkw)
           [WKTNode.mk (String.mk (quoteWrap pn)) [],
            WKTNode.mk (String.mk lon) []]], rest) := by
  rw [parseNode_bracketed (f + 10) lvl rkw _ (by omega) hrkw hrkwt]
  have e1 : parseNode (f + 9) (lvl + 1)
      ('"' :: (escapeQuotes nm ++ '"' ::
        (',' :: (dkw ++ '[' :: ('"' :: (escapeQuotes dn ++ '"' ::
          (',' :: (ekw ++ '[' :: ('"' :: (escapeQuotes en ++ '"' ::
            (',' :: (a ++ ',' :: (rf ++ ']' :: (']' ::
              (',' :: (pkw ++ '[' :: ('"' :: (escapeQuotes pn ++ '"' ::
                (',' :: (lon ++ ']' :: (']' :: rest))))))))))))))))))))) =
      .ok (WKTNode.mk (String.mk (quoteWrap nm)) [],
        ',' :: (dkw ++ '[' :: ('"' :: (escapeQuotes dn ++ '"' ::
          (',' :: (ekw ++ '[' :: ('"' :: (escapeQuotes en ++ '"' ::
            (',' :: (a ++ ',' :: (rf ++ ']' :: (']' ::
              (',' :: (pkw ++ '[' :: ('"' :: (escapeQuotes pn ++ '"' ::
                (',' :: (lon ++ ']' :: (']' :: rest))))))))))))))))))) :=
    parseNode_quoted_leaf (f + 8) (lvl + 1) nm _ (by omega) (by simp)
  rw [parseChildren_step (f + 9) (lvl + 1) _ _ _ _ _ _ _ e1
    (skipSpace_cons_of_nonspace _ (by decide))]
  have e2 : parseNode (f + 8) (lvl + 1)
      (dkw ++ '[' :: ('"' :: (escapeQuotes dn ++ '"' ::
        (',' :: (ekw ++ '[' :: ('"' :: (escapeQuotes en ++ '"' ::
          (',' :: (a ++ ',' :: (rf ++ ']' :: (']' ::
            (',' :: (pkw ++ '[' :: ('"' :: (escapeQuotes pn ++ '"' ::
              (',' :: (lon ++ ']' :: (']' :: rest)))))))))))))))))) =
      .ok (WKTNode.mk (String.mk dkw)
        [WKTNode.mk (String.mk (quoteWrap dn)) [],
         WKTNode.mk (String.mk ekw)
           [WKTNode.mk (String.mk (quoteWrap en)) [],
            WKTNode.mk (String.mk a) [],
            WKTNode.mk (String.mk rf) []]],
        ',' :: (pkw ++ '[' :: ('"' :: (escapeQuotes pn ++ '"' ::
          (',' :: (lon ++ ']' :: (']' :: rest))))))) :=
    parse_datum_chars f (lvl + 1) dkw dn ekw en a rf
      (',' :: (pkw ++ '[' :: ('"' :: (escapeQuotes pn ++ '"' ::
        (',' :: (lon ++ ']' :: (']' :: rest)))))))
      (by omega) hdkw hdkwt hekw hekwt ha hat hrf hrft
  rw [parseChildren_step (f + 8) (lvl + 1) _ _ _ _ _ _ _ e2
    (skipSpace_cons_of_nonspace _ (by decide))]
  have e3 : parseNode (f + 7) (lvl + 1)
      (pkw ++ '[' :: ('"' :: (escapeQuotes pn ++ '"' ::
        (',' :: (lon ++ ']' :: (']' :: rest)))))) =
      .ok (WKTNode.mk (String.mk pkw)
        [WKTNode.mk (String.mk (quoteWrap pn)) [],
         WKTNode.mk (String.mk lon) []], ']' :: rest) :=
    parse_primem_chars (f + 3) (lvl + 1) pkw pn lon (']' :: rest)
      (by omega) hpkw hpkwt hlon hlont
  rw [parseChildren_close (f + 7) (lvl + 1) _ _ _ _ _ _ _ e3
    (skipSpace_cons_of_nonspace _ (by decide)) (by decide)]
  simp

theorem parse_geogcrs_chars_without_primem (f lvl : Nat)
    (rkw nm dkw dn ekw en a rf rest : List Char)
    (hlvl : lvl + 3 ≤ maxRecLevel)
    (hrkw : rkw ≠ []) (hrkwt : ∀ c ∈ rkw, isWKTDelim c = false)
    (hdkw : dkw ≠ []) (hdkwt : ∀ c ∈ dkw, isWKTDelim c = false)
    (hekw : ekw ≠ []) (hekwt : ∀ c ∈ ekw, isWKTDelim c = false)
    (ha : a ≠ []) (hat : ∀ c ∈ a, isWKTDelim c = false)
    (hrf : rf ≠ []) (hrft : ∀ c ∈ rf, isWKTDelim c = false) :
    parseNode (f + 11) lvl
        (rkw ++ '[' :: ('"' :: (escapeQuotes nm ++ '"' ::
          (',' :: (dkw ++ '[' :: ('"' :: (escapeQuotes dn ++ '"' ::
            (',' :: (ekw ++ '[' :: ('"' :: (escapeQuotes en ++ '"' ::
              (',' :: (a ++ ',' :: (rf ++ ']' :: (']' :: (']' :: rest)))))))))))))))) =
      .ok (WKTNode.mk (String.mk rkw)
        [WKTNode.mk (String.mk (quoteWrap nm)) [],
         WKTNode.mk (String.mk dkw)
           [WKTNode.mk (String.mk (quoteWrap dn)) [],
            WKTNode.mk (String.mk ekw)
              [WKTNode.mk (String.mk (quoteWrap en)) [],
               WKTNode.mk (String.mk a) [],
               WKTNode.mk (String.mk rf) []]]], rest) := by
  rw [parseNode_bracketed (f + 10) lvl rkw _ (by omega) hrkw hrkwt]
  have e1 : parseNode (f + 9) (lvl + 1)
      ('"' :: (escapeQuotes nm ++ '"' ::
        (',' :: (dkw ++ '[' :: ('"' :: (escapeQuotes dn ++ '"' ::
          (',' :: (ekw ++ '[' :: ('"' :: (escapeQuotes en ++ '"' ::
            (',' :: (a ++ ',' :: (rf ++ ']' :: (']' :: (']' :: rest))))))))))))))) =
      .ok (WKTNode.mk (String.mk (quoteWrap nm)) [],
        ',' :: (dkw ++ '[' :: ('"' :: (escapeQuotes dn ++ '"' ::
          (',' :: (ekw ++ '[' :: ('"' :: (escapeQuotes en ++ '"' ::
            (',' :: (a ++ ',' :: (rf ++ ']' :: (']' :: (']' :: rest))))))))))))) :=
    parseNode_quoted_leaf (f + 8) (lvl + 1) nm _ (by omega) (by simp)
  rw [parseChildren_step (f + 9) (lvl + 1) _ _ _ _ _ _ _ e1
    (skipSpace_cons_of_nonspace _ (by decide))]
  have e2 : parseNode (f + 8) (lvl + 1)
      (dkw ++ '[' :: ('"' :: (escapeQuotes dn ++ '"' ::
        (',' :: (ekw ++ '[' :: ('"' :: (escapeQuotes en ++ '"' ::
          (',' :: (a ++ ',' :: (rf ++ ']' :: (']' :: (']' :: rest)))))))))))) =
      .ok (WKTNode.mk (String.mk dkw)
        [WKTNode.mk (String.mk (quoteWrap dn)) [],
         WKTNode.mk (String.mk ekw)
           [WKTNode.mk (String.mk (quoteWrap en)) [],
            WKTNode.mk (String.mk a) [],
            WKTNode.mk (String.mk rf) []]], ']' :: rest) :=
    parse_datum_chars f (lvl + 1) dkw dn ekw en a rf (']' :: rest)
      (by omega) hdkw hdkwt hekw hekwt ha hat hrf hrft
  rw [parseChildren_close (f + 8) (lvl + 1) _ _ _ _ _ _ _ e2
    (skipSpace_cons_of_nonspace _ (by decide)) (by decide)]
  simp

theorem String.mk_data (s : String) : String.mk s.data = s := rfl

theorem unquoteValue_quoteWrap (l : List Char) :
    unquoteValue (String.mk (quoteWrap l)) = some (String.mk l) := by
  simp [unquoteValue, quoteWrap, List.getLast?_concat, List.dropLast_concat]

theorem mkString_quoteWrap_ne (l : List Char) (kw : String)
    (h : kw.data.head? ≠ some '"') : String.mk (quoteWrap l) ≠ kw := by
  intro he
  apply h
  rw [← he]
  rfl

theorem parseModel_with_pm (rkw ekw : String)
    (hr : rkw ∈ geographicRootKeywords)
    (hell : ekw = "ELLIPSOID" ∨ ekw = "SPHEROID")
    (nm dn en a rf pn lon : String) :
    parseGeographicCRSModel (WKTNode.mk rkw
      [WKTNode.mk (String.mk (quoteWrap nm.data)) [],
       WKTNode.mk "DATUM"
         [WKTNode.mk (String.mk (quoteWrap dn.data)) [],
          WKTNode.mk ekw
            [WKTNode.mk (String.mk (quoteWrap en.data)) [],
             WKTNode.mk a [], WKTNode.mk rf []]],
       WKTNode.mk "PRIMEM"
         [WKTNode.mk (String.mk (quoteWrap pn.data)) [],
          WKTNode.mk lon []]]) =
    .ok { name := nm, datumName := dn,
          ellipsoid := { name := en, semiMajorAxis := a, inverseFlattening := rf },
          primeMeridian := { name := pn, longitude := lon } } := by
  have hq1 := mkString_quoteWrap_ne nm.data "DATUM" (by decide)
  have hq2 := mkString_quoteWrap_ne nm.data "PRIMEM" (by decide)
  have hq3 := mkString_quoteWrap_ne dn.data "ELLIPSOID" (by decide)
  have hq4 := mkString_quoteWrap_ne dn.data "SPHEROID" (by decide)
  simp only [parseGeographicCRSModel, WKTNode.value, hr, if_pos]
  simp only [WKTNode.lookForChild, WKTNode.children, WKTNode.value, List.filter_cons,
    hq1, hq2, decide_eq_true_eq]
  rcases hell with he | he <;> subst he <;>
    simp [parseDatumNode, parseEllipsoidNode, parsePrimeMeridianNode,
      WKTNode.lookForChild, WKTNode.children, WKTNode.value, List.filter_cons,
      unquoteValue_quoteWrap, hq1, hq2, hq3, hq4, String.mk_data, Except.map]

theorem parseModel_without_pm (rkw ekw : String)
    (hr : rkw ∈ geographicRootKeywords)
    (hell : ekw = "ELLIPSOID" ∨ ekw = "SPHEROID")
    (nm dn en a rf : String) :
    parseGeographicCRSModel (WKTNode.mk rkw
      [WKTNode.mk (String.mk (quoteWrap nm.data)) [],
       WKTNode.mk "DATUM"
         [WKTNode.mk (String.mk (quoteWrap dn.data)) [],
          WKTNode.mk ekw
            [WKTNode.mk (String.mk (quoteWrap en.data)) [],
             WKTNode.mk a [], WKTNode.mk rf []]]]) =
    .ok { name := nm, datumName := dn,
          ellipsoid := { name := en, semiMajorAxis := a, inverseFlattening := rf },
          primeMeridian := greenwich } := by
  have hq1 := mkString_quoteWrap_ne nm.data "DATUM" (by decide)
  have hq2 := mkString_quoteWrap_ne nm.data "PRIMEM" (by decide)
  have hq3 := mkString_quoteWrap_ne dn.data "ELLIPSOID" (by decide)
  have hq4 := mkString_quoteWrap_ne dn.data "SPHEROID" (by decide)
  simp only [parseGeographicCRSModel, WKTNode.value, hr, if_pos]
  simp only [WKTNode.lookForChild, WKTNode.children, WKTNode.value, List.filter_cons,
    hq1, hq2, decide_eq_true_eq]
  rcases hell with he | he <;> subst he <;>
    simp [parseDatumNode, parseEllipsoidNode, parsePrimeMeridianNode,
      WKTNode.lookForChild, WKTNode.children, WKTNode.value, List.filter_cons,
      unquoteValue_quoteWrap, hq1, hq2, hq3, hq4, String.mk_data, Except.map]

theorem export_run_chars (conv : WKTFormatter.Convention) (crs : GeographicCRSModel) :
    crs.exportToWKT (WKTFormatter.create conv) = .ok (String.mk (wktChars conv crs)) := by
  by_cases homit : WKTFormatter.primeMeridianOmittedIfGreenwich conv ∧ crs.primeMeridian = greenwich
  · simp [GeographicCRSModel.exportToWKT, exportToWKT, GeographicCRSModel.wktExport,
      WKTFormatter.create, homit, WKTFormatter.run, WKTFormatter.toString, wktChars]
  · simp [GeographicCRSModel.exportToWKT, exportToWKT, GeographicCRSModel.wktExport,
      WKTFormatter.create, homit, WKTFormatter.run, WKTFormatter.toString, wktChars]

theorem createFromWKT_wktChars (conv : WKTFormatter.Convention) (crs : GeographicCRSModel)
    (hwf : crs.wellFormed = true) :
    WKTParser.createFromWKT (String.mk (wktChars conv crs)) = .ok crs := by
  have hrkw_mem : rootGeographicKeyword conv ∈ geographicRootKeywords := by
    cases conv <;> decide
  have hrkw_ne : (rootGeographicKeyword conv).data ≠ [] := by cases conv <;> decide
  have hrkw_tok : ∀ c ∈ (rootGeographicKeyword conv).data, isWKTDelim c = false := by
    cases conv <;> decide
  have hekw : ellipsoidKeyword conv = "ELLIPSOID" ∨ ellipsoidKeyword conv = "SPHEROID" := by
    cases conv <;> simp [ellipsoidKeyword]
  have hekw_ne : (ellipsoidKeyword conv).data ≠ [] := by cases conv <;> decide
  have hekw_tok : ∀ c ∈ (ellipsoidKeyword conv).data, isWKTDelim c = false := by
    cases conv <;> decide
  simp only [GeographicCRSModel.wellFormed, wktTokenOk, Bool.and_eq_true,
    Bool.not_eq_true', List.all_eq_true, Bool.not_eq_true, List.isEmpty_eq_false,
    ne_eq, decide_eq_true_eq] at hwf
  obtain ⟨⟨⟨ha, hat⟩, hrf, hrft⟩, hlon, hlont⟩ := hwf
  have hdata : (String.mk (wktChars conv crs)).data = wktChars conv crs := rfl
  unfold WKTParser.createFromWKT
  simp only [WKTNode.createFrom, hdata, List.drop_zero]
  by_cases homit :
      WKTFormatter.primeMeridianOmittedIfGreenwich conv ∧ crs.primeMeridian = greenwich
  · have hW : wktChars conv crs =
        (rootGeographicKeyword conv).data ++ '[' :: ('"' :: (escapeQuotes crs.name.data ++ '"' ::
          (',' :: ("DATUM".data ++ '[' :: ('"' :: (escapeQuotes crs.datumName.data ++ '"' ::
            (',' :: ((ellipsoidKeyword conv).data ++ '[' ::
              ('"' :: (escapeQuotes crs.ellipsoid.name.data ++ '"' ::
                (',' :: (crs.ellipsoid.semiMajorAxis.data ++ ',' ::
                  (crs.ellipsoid.inverseFlattening.data ++ ']' ::
                    (']' :: (']' :: ([] : List Char)))))))))))))))) := by
      simp only [wktChars]
      rw [if_pos homit]
    have hlen : 11 ≤ 2 * (wktChars conv crs).length + 2 := by
      rw [hW]
      simp [List.length_append, List.length_cons]
      omega
    obtain ⟨f, hf⟩ : ∃ f, 2 * (wktChars conv crs).length + 2 = f + 11 :=
      ⟨2 * (wktChars conv crs).length + 2 - 11, by omega⟩
    rw [hf, hW]
    rw [parse_geogcrs_chars_without_primem f 0 (rootGeographicKeyword conv).data
      crs.name.data "DATUM".data crs.datumName.data (ellipsoidKeyword conv).data
      crs.ellipsoid.name.data crs.ellipsoid.semiMajorAxis.data
      crs.ellipsoid.inverseFlattening.data []
      (by decide) hrkw_ne hrkw_tok (by decide) (by decide) hekw_ne hekw_tok
      ha hat hrf hrft]
    simp only [skipSpace, reduceIte, String.mk_data]
    rw [parseModel_without_pm (rootGeographicKeyword conv) (ellipsoidKeyword conv)
      hrkw_mem hekw crs.name crs.datumName crs.ellipsoid.name
      crs.ellipsoid.semiMajorAxis crs.ellipsoid.inverseFlattening]
    rw [← homit.2]
  · have hW : wktChars conv crs =
        ((rootGeographicKeyword conv).data ++ '[' :: ('"' :: (escapeQuotes crs.name.data ++ '"' ::
          (',' :: ("DATUM".data ++ '[' :: ('"' :: (escapeQuotes crs.datumName.data ++ '"' ::
            (',' :: ((ellipsoidKeyword conv).data ++ '[' :: ('"' :: (escapeQuotes crs.ellipsoid.name.data ++ '"' ::
              (',' :: (crs.ellipsoid.semiMajorAxis.data ++ ',' :: (crs.ellipsoid.inverseFlattening.data ++ ']' :: (']' ::
                (',' :: ("PRIMEM".data ++ '[' :: ('"' :: (escapeQuotes crs.primeMeridian.name.data ++ '"' ::
                  (',' :: (crs.primeMeridian.longitude.data ++ ']' :: (']' :: ([] : List Char))))))))))))))))))))))) := by
      simp only [wktChars]
      rw [if_neg homit]
    have hlen : 11 ≤ 2 * (wktChars conv crs).length + 2 := by
      rw [hW]
      simp [List.length_append, List.length_cons]
      omega
    obtain ⟨f, hf⟩ : ∃ f, 2 * (wktChars conv crs).length + 2 = f + 11 :=
      ⟨2 * (wktChars conv crs).length + 2 - 11, by omega⟩
    rw [hf, hW]
    rw [parse_geogcrs_chars_with_primem f 0 (rootGeographicKeyword conv).data
      crs.name.data "DATUM".data crs.datumName.data (ellipsoidKeyword conv).data
      crs.ellipsoid.name.data crs.ellipsoid.semiMajorAxis.data
      crs.ellipsoid.inverseFlattening.data "PRIMEM".data
      crs.primeMeridian.name.data crs.primeMeridian.longitude.data []
      (by decide) hrkw_ne hrkw_tok (by decide) (by decide) hekw_ne hekw_tok
      ha hat hrf hrft (by decide) (by decide) hlon hlont]
    simp only [skipSpace, reduceIte, String.mk_data]
    rw [parseModel_with_pm (rootGeographicKeyword conv) (ellipsoidKeyword conv)
      hrkw_mem hekw crs.name crs.datumName crs.ellipsoid.name
      crs.ellipsoid.semiMajorAxis crs.ellipsoid.inverseFlattening
      crs.primeMeridian.name crs.primeMeridian.longitude]

/-- C1: for every convention that can express the modelled geographic CRS and
every well-formed CRS description, the WKT text produced by `exportToWKT` on a
fresh formatter of that convention parses back - `WKTParser::createFromWKT`,
i.e. `WKTNode::createFrom` followed by the construction logic - to an object
equal to the original on all identifying attributes; a simplified convention
drops the PRIMEM node exactly when it is Greenwich and the parse restores that
documented omission, so the equality is exact. -/
theorem wkt_export_parse_roundtrip_geographic_crs
    (conv : WKTFormatter.Convention) (crs : GeographicCRSModel)
    (_hconv : canExpressGeographicCRS conv = true) (hwf : crs.wellFormed = true) :
    ∃ wkt, crs.exportToWKT (WKTFormatter.create conv) = .ok wkt ∧
      WKTParser.createFromWKT wkt = .ok crs :=
  ⟨String.mk (wktChars conv crs), export_run_chars conv crs,
   createFromWKT_wktChars conv crs hwf⟩

/-- C1 witness: the fixture CRS round-trips through the WKT2-2018
convention. -/
theorem wkt_export_parse_roundtrip_geographic_crs_witness :
    ∃ wkt, wgs84.exportToWKT (WKTFormatter.create .WKT2_2018) = .ok wkt ∧
      WKTParser.createFromWKT wkt = .ok wgs84 :=
  wkt_export_parse_roundtrip_geographic_crs .WKT2_2018 wgs84 (by decide) (by decide)

/-- C7: quoted literals obey the single doubled-quote escaping rule and are
not tokenized further: scanning the escaped form of any content - commas and
brackets included - returns the content verbatim as one literal, and in a
full parse a quoted literal containing commas, brackets and a doubled quote
becomes a single leaf child whose value keeps those characters. -/
theorem wkt_quoted_literal_escaping_inert :
    (∀ (content rest : List Char), rest.head? ≠ some '"' →
      parseQuotedBody (escapeQuotes content ++ '"' :: rest) = some (content, rest)) ∧
    WKTNode.createFrom "A[\"b,c]d\"\"e\"]" =
      .ok (WKTNode.mk "A" [WKTNode.mk "\"b,c]d\"e\"" []]) :=
  ⟨parseQuotedBody_escape, by rfl⟩

/-- C7 witness: the quoted-literal scanner applied to a concrete content
holding a comma, a closing bracket and an escaped quote. -/
theorem wkt_quoted_literal_escaping_inert_witness :
    parseQuotedBody (escapeQuotes ("b,c]d\"e".data) ++ '"' :: [']']) =
      some ("b,c]d\"e".data, [']']) :=
  wkt_quoted_literal_escaping_inert.1 ("b,c]d\"e".data) [']'] (by decide)


end PROJ
